import Mathlib

/-!
Verification of the EduMap dashboard data pipeline (src/dashboard.py).

The pipeline is embedded shallowly: a pandas DataFrame becomes a list of
records, column operations become per-row functions mapped over the list,
and nullable (NaN-able) columns become Option-typed fields.  Derived
columns added by the preprocessing block (lines 9-22 of dashboard.py) are
plain (non-optional) fields of the derived record, because in the script
they are always computed from inputs that have already been validated
(TotalEnrol filtered non-null and positive at line 9) or filled
(teacher columns fillna(0) at line 14, No_Classrm fillna(0) at line 21),
so they can never hold NaN.
-/

/-- Raw CSV row of kenya_primary_schools_updated.csv, restricted to the
columns the script touches.  Nullable columns are Option-typed; Province
and District are used only for grouping and equality filters. -/
structure RawRecord where
  Name_of_Sc : Option String
  Province : String
  District : String
  Latitude : Option Rat
  Longitude : Option Rat
  TotalEnrol : Option Int
  TotalGirls : Int
  TotalBoys : Int
  GO_KTSC_M : Option Int
  authorityM : Option Int
  PTA_BOG_M : Option Int
  OthersM : Option Int
  GOK_TSC_F : Option Int
  authorityF : Option Int
  PTA_BOG_F : Option Int
  OthersF : Option Int
  PupilTeach : Option Rat
  No_Classrm : Option Rat
  TotalToile : Option Int
deriving DecidableEq

/-- Row after the derivation block (dashboard.py lines 14-22) has added the
computed columns. -/
structure SchoolRecord extends RawRecord where
  Male_Teachers : Int
  Female_Teachers : Int
  Total_Teachers_Recalc : Int
  Teachers_Required : Int
  Teacher_Shortage : Int
  Gender_Enrol_Gap : Int
  No_Classrooms : Int
  Toilet_Deficit : Nat
deriving DecidableEq

/-- Embedding of pandas Series.clip(lower=0) applied to one value
(dashboard.py line 19). -/
def clipLower0 (x : Int) : Int := if x < 0 then 0 else x

/-- Embedding of astype(int) on a float value: truncation toward zero
(dashboard.py line 21). -/
def truncRat (q : Rat) : Int := q.num / (q.den : Int)

/-- Embedding of (TotalEnrol / 40).round().astype(int) at dashboard.py
line 18.  pandas Series.round uses round-half-to-even; for an integer
enrollment n the float n/40 hits a representable exact half precisely when
n % 40 = 20, and is otherwise far enough from every half boundary that the
double rounding error cannot move it across, so rounding the exact rational
n/40 half-to-even reproduces the script.  Lean integer division here is
Euclidean, which for the divisor 40 gives 0 <= n % 40 < 40 for every n. -/
def roundHalfEvenDiv40 (n : Int) : Int :=
  if n % 40 < 20 then n / 40
  else if n % 40 = 20 then (if (n / 40) % 2 = 0 then n / 40 else n / 40 + 1)
  else n / 40 + 1

/-- Sum of the four male-tagged teacher columns with fillna(0)
(dashboard.py lines 14-15). -/
def male_teachers (r : RawRecord) : Int :=
  r.GO_KTSC_M.getD 0 + r.authorityM.getD 0 + r.PTA_BOG_M.getD 0 + r.OthersM.getD 0

/-- Sum of the four female-tagged teacher columns with fillna(0)
(dashboard.py lines 14 and 16). -/
def female_teachers (r : RawRecord) : Int :=
  r.GOK_TSC_F.getD 0 + r.authorityF.getD 0 + r.PTA_BOG_F.getD 0 + r.OthersF.getD 0

/-- Teachers_Required column (dashboard.py line 18). -/
def teachers_required_of (r : RawRecord) : Int :=
  roundHalfEvenDiv40 (r.TotalEnrol.getD 0)

/-- Toilet_Deficit column (dashboard.py line 22): 1 if pd.isna(x) or
x <= 0 else 0. -/
def toilet_deficit_of : Option Int → Nat
  | none => 1
  | some t => if t ≤ 0 then 1 else 0

/-- Per-row embedding of the derivation block, dashboard.py lines 14-22. -/
def derive (r : RawRecord) : SchoolRecord :=
  { toRawRecord := r
    Male_Teachers := male_teachers r
    Female_Teachers := female_teachers r
    Total_Teachers_Recalc := male_teachers r + female_teachers r
    Teachers_Required := teachers_required_of r
    Teacher_Shortage :=
      clipLower0 (teachers_required_of r - (male_teachers r + female_teachers r))
    Gender_Enrol_Gap := r.TotalGirls - r.TotalBoys
    No_Classrooms := truncRat (r.No_Classrm.getD 0)
    Toilet_Deficit := toilet_deficit_of r.TotalToile }

/-- Validity predicate of dashboard.py line 9:
df["TotalEnrol"].notna() and df["TotalEnrol"] > 0. -/
def validEnrol (r : RawRecord) : Bool :=
  match r.TotalEnrol with
  | none => false
  | some e => decide (0 < e)

/-- The preprocessing block, dashboard.py lines 9-22: validity filter then
per-row derivation. -/
def preprocess (rows : List RawRecord) : List SchoolRecord :=
  (rows.filter validEnrol).map derive

/-- Validity predicate re-read off a derived record (its raw TotalEnrol
field is unchanged by derivation). -/
def validEnrolS (r : SchoolRecord) : Bool :=
  validEnrol r.toRawRecord

/-- Province stage of the region filter, dashboard.py lines 56-57. -/
def province_filter (province : String) (rows : List SchoolRecord) : List SchoolRecord :=
  if province == "All" then rows else rows.filter (fun r => r.Province == province)

/-- District stage of the region filter, dashboard.py lines 58-59. -/
def district_filter (district : String) (rows : List SchoolRecord) : List SchoolRecord :=
  if district == "All" then rows else rows.filter (fun r => r.District == district)

/-- Region stage of the Record Filter, dashboard.py lines 55-59. -/
def region_filter (province district : String) (rows : List SchoolRecord) : List SchoolRecord :=
  district_filter district (province_filter province rows)

/-- The full Record Filter as an operation on SchoolRecord sets: validity
stage (line 9) then region stage (lines 55-59). -/
def record_filter (province district : String) (rows : List SchoolRecord) : List SchoolRecord :=
  region_filter province district (rows.filter validEnrolS)

/-- filtered_df of dashboard.py line 55-59 as a function of the raw rows
and the two sidebar selectors. -/
def filtered_df (rows : List RawRecord) (province district : String) : List SchoolRecord :=
  region_filter province district (preprocess rows)

/-- KPI 1, dashboard.py line 63: filtered_df["TotalEnrol"].sum().
pandas sum skips nulls, hence the filterMap. -/
def kpi_total_enrollment (rows : List SchoolRecord) : Int :=
  (rows.filterMap (fun r => r.TotalEnrol)).sum

/-- KPI 2, dashboard.py line 64: filtered_df["Total_Teachers_Recalc"].sum(). -/
def kpi_total_teachers (rows : List SchoolRecord) : Int :=
  (rows.map (fun r => r.Total_Teachers_Recalc)).sum

/-- KPI 3, dashboard.py line 65: filtered_df["Teacher_Shortage"].sum(). -/
def kpi_total_shortage (rows : List SchoolRecord) : Int :=
  (rows.map (fun r => r.Teacher_Shortage)).sum

/-- Distinct district keys of a groupby("District").  The spec leaves group
ordering unspecified, so first-appearance order is used. -/
def districts (rows : List SchoolRecord) : List String :=
  (rows.map (fun r => r.District)).eraseDups

/-- Rows of one groupby("District") group. -/
def district_group (rows : List SchoolRecord) (d : String) : List SchoolRecord :=
  rows.filter (fun r => r.District == d)

/-- Mean of a list of rationals (pandas mean of the non-null values of a
group). -/
def mean_rat (xs : List Rat) : Rat := xs.sum / (xs.length : Rat)

/-- ratio_chart, dashboard.py line 70: groupby district, mean of the raw
PupilTeach column, nulls skipped as pandas mean does. -/
def ratio_chart (rows : List SchoolRecord) : List (String × Rat) :=
  (districts rows).map
    (fun d => (d, mean_rat ((district_group rows d).filterMap (fun r => r.PupilTeach))))

/-- shortage_chart, dashboard.py line 75: groupby district, sum of
Teacher_Shortage. -/
def shortage_chart (rows : List SchoolRecord) : List (String × Int) :=
  (districts rows).map
    (fun d => (d, ((district_group rows d).map (fun r => r.Teacher_Shortage)).sum))

/-- Top-10 selection of dashboard.py line 76:
sort_values descending (stable) then head(10). -/
def shortage_top10 (rows : List SchoolRecord) : List (String × Int) :=
  ((shortage_chart rows).mergeSort (fun a b => decide (b.2 ≤ a.2))).take 10

/-- Completeness predicate of the dropna() at dashboard.py line 83.  The
dropna ranges over the seven selected columns Latitude, Longitude,
Name_of_Sc, Teacher_Shortage, Total_Teachers_Recalc, No_Classrooms,
TotalToile; the three derived numeric columns are never null (see the
module comment), so the check reduces to the four genuinely nullable
ones. -/
def map_row_complete (r : SchoolRecord) : Bool :=
  r.Latitude.isSome && r.Longitude.isSome && r.Name_of_Sc.isSome && r.TotalToile.isSome

/-- map_data, dashboard.py line 83: the filtered rows surviving dropna(). -/
def map_data (rows : List SchoolRecord) : List SchoolRecord :=
  rows.filter map_row_complete

/-- Shortage_Level, dashboard.py lines 89-93: pd.cut with right-closed bins
(-1, 0], (0, 19], (19, 39], (39, inf); values at or below -1 fall outside
every bin and become null. -/
def Shortage_Level (s : Int) : Option String :=
  if s ≤ -1 then none
  else if s ≤ 0 then some "🟩 No Shortage"
  else if s ≤ 19 then some "🟨 Low"
  else if s ≤ 39 then some "🟧 Moderate"
  else some "🟥 High"

/-- Points of the teacher-shortage map (dashboard.py lines 89-107): each
map_data row paired with its severity label. -/
def fig_shortage_points (rows : List SchoolRecord) : List (SchoolRecord × Option String) :=
  (map_data rows).map (fun r => (r, Shortage_Level r.Teacher_Shortage))

/-- infra_color, dashboard.py line 114: No_Classrooms + TotalToile on a
map_data row (where TotalToile is non-null by the dropna). -/
def infra_color (r : SchoolRecord) : Int :=
  r.No_Classrooms + r.TotalToile.getD 0

/-- Points of the infrastructure map (dashboard.py lines 114-129): each
map_data row paired with its continuous score. -/
def fig_infra_points (rows : List SchoolRecord) : List (SchoolRecord × Int) :=
  (map_data rows).map (fun r => (r, infra_color r))

/-- Concrete record with valid coordinates and enrollment but a null
TotalToile column. -/
def exToiletNull : RawRecord :=
  { Name_of_Sc := some "S1"
    Province := "P1"
    District := "D1"
    Latitude := some 1
    Longitude := some 2
    TotalEnrol := some 40
    TotalGirls := 20
    TotalBoys := 20
    GO_KTSC_M := none
    authorityM := none
    PTA_BOG_M := none
    OthersM := none
    GOK_TSC_F := none
    authorityF := none
    PTA_BOG_F := none
    OthersF := none
    PupilTeach := some 40
    No_Classrm := none
    TotalToile := none }

/-- Concrete valid record whose eight teacher-count columns are all null. -/
def exAllNullTeachers : RawRecord :=
  { Name_of_Sc := some "S2"
    Province := "P1"
    District := "D1"
    Latitude := none
    Longitude := none
    TotalEnrol := some 100
    TotalGirls := 60
    TotalBoys := 40
    GO_KTSC_M := none
    authorityM := none
    PTA_BOG_M := none
    OthersM := none
    GOK_TSC_F := none
    authorityF := none
    PTA_BOG_F := none
    OthersF := none
    PupilTeach := none
    No_Classrm := none
    TotalToile := some 4 }

/-- Concrete valid record with enrollment 60, an exact rounding tie
(60 / 40 = 1.5). -/
def exEnrol60 : RawRecord :=
  { Name_of_Sc := some "S3"
    Province := "P2"
    District := "D2"
    Latitude := some 3
    Longitude := some 4
    TotalEnrol := some 60
    TotalGirls := 30
    TotalBoys := 30
    GO_KTSC_M := some 1
    authorityM := none
    PTA_BOG_M := none
    OthersM := none
    GOK_TSC_F := some 1
    authorityF := none
    PTA_BOG_F := none
    OthersF := none
    PupilTeach := some 30
    No_Classrm := some 6
    TotalToile := some 5 }

lemma clipLower0_eq_max (x : Int) : clipLower0 x = max 0 x := by
  unfold clipLower0
  split <;> omega

lemma validEnrol_some (r : RawRecord) (hv : validEnrol r = true) :
    ∃ e, r.TotalEnrol = some e ∧ 0 < e := by
  cases h : r.TotalEnrol with
  | none => simp [validEnrol, h] at hv
  | some e =>
    refine ⟨e, rfl, ?_⟩
    simpa [validEnrol, h] using hv

/-- C1: for every derived SchoolRecord, Teacher_Shortage equals
max 0 (Teachers_Required - Total_Teachers_Recalc); in particular the
shortage is never negative, even when the teacher total exceeds the
requirement. -/
theorem C1_shortage_clip (r : RawRecord) :
    (derive r).Teacher_Shortage
        = max 0 ((derive r).Teachers_Required - (derive r).Total_Teachers_Recalc)
    ∧ 0 ≤ (derive r).Teacher_Shortage := by
  have h : (derive r).Teacher_Shortage
      = max 0 ((derive r).Teachers_Required - (derive r).Total_Teachers_Recalc) :=
    clipLower0_eq_max _
  exact ⟨h, by rw [h]; exact le_max_left 0 _⟩

/-- C3: severity bucketing partitions the domain shortage >= 0 totally and
mutually exclusively, with exactly these boundaries: 0 is No Shortage,
1..19 is Low, 20..39 is Moderate, 40 and above is High.  Each label is
stated as an iff, so the four ranges both cover the domain and exclude one
another. -/
theorem C3_severity_buckets (s : Int) (h : 0 ≤ s) :
    (Shortage_Level s).isSome = true
    ∧ (s = 0 ↔ Shortage_Level s = some "🟩 No Shortage")
    ∧ (1 ≤ s ∧ s ≤ 19 ↔ Shortage_Level s = some "🟨 Low")
    ∧ (20 ≤ s ∧ s ≤ 39 ↔ Shortage_Level s = some "🟧 Moderate")
    ∧ (40 ≤ s ↔ Shortage_Level s = some "🟥 High") := by
  unfold Shortage_Level
  split_ifs <;> refine ⟨?_, ?_, ?_, ?_, ?_⟩ <;> simp_all <;> omega

/-- C3 witness: the boundary value 20 lands in the Moderate bucket. -/
theorem C3_severity_buckets_witness :
    Shortage_Level 20 = some "🟧 Moderate" :=
  ((C3_severity_buckets 20 (by decide)).2.2.2.1).mp ⟨by decide, by decide⟩

/-- C5: a valid record whose eight raw teacher-count fields are all null
derives male total 0, female total 0, combined total 0, and a shortage
equal to the teachers required. -/
theorem C5_all_null_teachers (r : RawRecord) (hv : validEnrol r = true)
    (h1 : r.GO_KTSC_M = none) (h2 : r.authorityM = none)
    (h3 : r.PTA_BOG_M = none) (h4 : r.OthersM = none)
    (h5 : r.GOK_TSC_F = none) (h6 : r.authorityF = none)
    (h7 : r.PTA_BOG_F = none) (h8 : r.OthersF = none) :
    (derive r).Male_Teachers = 0 ∧ (derive r).Female_Teachers = 0
    ∧ (derive r).Total_Teachers_Recalc = 0
    ∧ (derive r).Teacher_Shortage = (derive r).Teachers_Required := by
  have hm : male_teachers r = 0 := by simp [male_teachers, h1, h2, h3, h4]
  have hf : female_teachers r = 0 := by simp [female_teachers, h5, h6, h7, h8]
  obtain ⟨e, he, hpos⟩ := validEnrol_some r hv
  have hreq : 0 ≤ teachers_required_of r := by
    unfold teachers_required_of roundHalfEvenDiv40
    rw [he]
    simp only [Option.getD_some]
    split_ifs <;> omega
  refine ⟨hm, hf, ?_, ?_⟩
  · show male_teachers r + female_teachers r = 0
    omega
  · show clipLower0 (teachers_required_of r - (male_teachers r + female_teachers r))
        = teachers_required_of r
    rw [hm, hf]
    unfold clipLower0
    split <;> omega

/-- C5 witness: the concrete all-null-teacher record with enrollment 100. -/
theorem C5_all_null_teachers_witness :
    (derive exAllNullTeachers).Male_Teachers = 0
    ∧ (derive exAllNullTeachers).Female_Teachers = 0
    ∧ (derive exAllNullTeachers).Total_Teachers_Recalc = 0
    ∧ (derive exAllNullTeachers).Teacher_Shortage
        = (derive exAllNullTeachers).Teachers_Required :=
  C5_all_null_teachers exAllNullTeachers (by decide) rfl rfl rfl rfl rfl rfl rfl rfl

/-- C6: for every derived SchoolRecord the combined teacher total equals
male total plus female total exactly, where the male total is the sum of
the four male-tagged source fields and the female total the sum of the
four female-tagged ones, nulls read as 0. -/
theorem C6_total_teachers_sum (r : RawRecord) :
    (derive r).Total_Teachers_Recalc = (derive r).Male_Teachers + (derive r).Female_Teachers
    ∧ (derive r).Male_Teachers
        = r.GO_KTSC_M.getD 0 + r.authorityM.getD 0 + r.PTA_BOG_M.getD 0 + r.OthersM.getD 0
    ∧ (derive r).Female_Teachers
        = r.GOK_TSC_F.getD 0 + r.authorityF.getD 0 + r.PTA_BOG_F.getD 0 + r.OthersF.getD 0 :=
  ⟨rfl, rfl, rfl⟩

/-- C9: for every valid record, Teachers_Required is exactly the
round-half-to-even rounding of enrollment / 40: it is non-negative, it is
a nearest integer to enrollment / 40 (within 20/40 of it), and on an exact
tie it is the even one. -/
theorem C9_teachers_required_round (r : RawRecord) (hv : validEnrol r = true) :
    (derive r).Teachers_Required = roundHalfEvenDiv40 (r.TotalEnrol.getD 0)
    ∧ 0 ≤ (derive r).Teachers_Required
    ∧ (40 * (derive r).Teachers_Required - r.TotalEnrol.getD 0).natAbs ≤ 20
    ∧ ((40 * (derive r).Teachers_Required - r.TotalEnrol.getD 0).natAbs = 20
        → (derive r).Teachers_Required % 2 = 0) := by
  obtain ⟨e, he, hpos⟩ := validEnrol_some r hv
  have hgd : r.TotalEnrol.getD 0 = e := by rw [he]; rfl
  have hreq : (derive r).Teachers_Required = roundHalfEvenDiv40 e := by
    show teachers_required_of r = _
    rw [teachers_required_of, hgd]
  rw [hreq, hgd]
  refine ⟨rfl, ?_, ?_, ?_⟩ <;>
    (unfold roundHalfEvenDiv40; split_ifs <;> omega)

/-- C9 witness: enrollment 60 is an exact tie 1.5 and rounds to the even
integer 2. -/
theorem C9_teachers_required_round_witness :
    (derive exEnrol60).Teachers_Required
        = roundHalfEvenDiv40 (exEnrol60.TotalEnrol.getD 0)
    ∧ 0 ≤ (derive exEnrol60).Teachers_Required
    ∧ (40 * (derive exEnrol60).Teachers_Required - exEnrol60.TotalEnrol.getD 0).natAbs ≤ 20
    ∧ ((40 * (derive exEnrol60).Teachers_Required - exEnrol60.TotalEnrol.getD 0).natAbs = 20
        → (derive exEnrol60).Teachers_Required % 2 = 0) :=
  C9_teachers_required_round exEnrol60 (by decide)

lemma filter_self_idem {α : Type} (q : α → Bool) (l : List α) :
    (l.filter q).filter q = l.filter q :=
  List.filter_eq_self.mpr (fun _ ha => List.of_mem_filter ha)

lemma map_fst_pair {α β : Type} (g : α → β) (l : List α) :
    (l.map (fun r => (r, g r))).map Prod.fst = l := by
  induction l with
  | nil => rfl
  | cons a t ih => simp only [List.map_cons, ih]

lemma mem_of_mem_province_filter {p : String} {l : List SchoolRecord} {a : SchoolRecord}
    (h : a ∈ province_filter p l) : a ∈ l := by
  unfold province_filter at h
  split at h
  · exact h
  · exact (List.mem_filter.mp h).1

lemma mem_of_mem_district_filter {d : String} {l : List SchoolRecord} {a : SchoolRecord}
    (h : a ∈ district_filter d l) : a ∈ l := by
  unfold district_filter at h
  split at h
  · exact h
  · exact (List.mem_filter.mp h).1

lemma province_filter_mem_matches {p : String} {l : List SchoolRecord} {a : SchoolRecord}
    (h : a ∈ province_filter p l) (hp : (p == "All") = false) :
    (a.Province == p) = true := by
  unfold province_filter at h
  rw [hp] at h
  simp only [Bool.false_eq_true, if_false] at h
  exact (List.mem_filter.mp h).2

lemma district_filter_mem_matches {d : String} {l : List SchoolRecord} {a : SchoolRecord}
    (h : a ∈ district_filter d l) (hd : (d == "All") = false) :
    (a.District == d) = true := by
  unfold district_filter at h
  rw [hd] at h
  simp only [Bool.false_eq_true, if_false] at h
  exact (List.mem_filter.mp h).2

lemma province_filter_eq_self {p : String} {l : List SchoolRecord}
    (h : ∀ a ∈ l, (p == "All") = true ∨ (a.Province == p) = true) :
    province_filter p l = l := by
  unfold province_filter
  by_cases hp : (p == "All") = true
  · simp [hp]
  · rw [Bool.eq_false_iff.mpr hp]
    simp only [Bool.false_eq_true, if_false]
    exact List.filter_eq_self.mpr (fun a ha => (h a ha).resolve_left hp)

lemma district_filter_eq_self {d : String} {l : List SchoolRecord}
    (h : ∀ a ∈ l, (d == "All") = true ∨ (a.District == d) = true) :
    district_filter d l = l := by
  unfold district_filter
  by_cases hd : (d == "All") = true
  · simp [hd]
  · rw [Bool.eq_false_iff.mpr hd]
    simp only [Bool.false_eq_true, if_false]
    exact List.filter_eq_self.mpr (fun a ha => (h a ha).resolve_left hd)

lemma region_filter_subset {p d : String} {l : List SchoolRecord} {a : SchoolRecord}
    (h : a ∈ region_filter p d l) : a ∈ l :=
  mem_of_mem_province_filter (mem_of_mem_district_filter h)

lemma region_filter_eq_self {p d : String} {l : List SchoolRecord}
    (hp : ∀ a ∈ l, (p == "All") = true ∨ (a.Province == p) = true)
    (hd : ∀ a ∈ l, (d == "All") = true ∨ (a.District == d) = true) :
    region_filter p d l = l := by
  unfold region_filter
  rw [province_filter_eq_self hp]
  exact district_filter_eq_self hd

lemma mem_region_filter_province {p d : String} {l : List SchoolRecord} {a : SchoolRecord}
    (h : a ∈ region_filter p d l) (hp : (p == "All") = false) :
    (a.Province == p) = true :=
  province_filter_mem_matches (mem_of_mem_district_filter h) hp

lemma mem_region_filter_district {p d : String} {l : List SchoolRecord} {a : SchoolRecord}
    (h : a ∈ region_filter p d l) (hd : (d == "All") = false) :
    (a.District == d) = true :=
  district_filter_mem_matches h hd

/-- C7: the Record Filter (validity stage plus region stage) is idempotent:
running it again with the same province and district selectors on its own
output returns the identical list. -/
theorem C7_record_filter_idempotent (province district : String) (rows : List SchoolRecord) :
    record_filter province district (record_filter province district rows)
      = record_filter province district rows := by
  have hvalid : ∀ a ∈ record_filter province district rows, validEnrolS a = true :=
    fun a ha => List.of_mem_filter (region_filter_subset ha)
  have hstep1 : (record_filter province district rows).filter validEnrolS
      = record_filter province district rows :=
    List.filter_eq_self.mpr hvalid
  show region_filter province district
      ((record_filter province district rows).filter validEnrolS)
      = record_filter province district rows
  rw [hstep1]
  show region_filter province district
      (region_filter province district (rows.filter validEnrolS))
      = region_filter province district (rows.filter validEnrolS)
  apply region_filter_eq_self
  · intro a ha
    by_cases hp : (province == "All") = true
    · exact Or.inl hp
    · exact Or.inr (mem_region_filter_province ha (Bool.eq_false_iff.mpr hp))
  · intro a ha
    by_cases hd : (district == "All") = true
    · exact Or.inl hd
    · exact Or.inr (mem_region_filter_district ha (Bool.eq_false_iff.mpr hd))

/-- C2 counterexample: a record with non-null latitude and longitude but a
null TotalToile column is in the filtered set yet absent from map_data,
because the dropna at dashboard.py line 83 also drops rows whose
Name_of_Sc or TotalToile entry is null, so map membership is not
equivalent to having non-null coordinates. -/
theorem C2_counterexample :
    (derive exToiletNull) ∈ filtered_df [exToiletNull] "All" "All"
    ∧ (derive exToiletNull).Latitude.isSome = true
    ∧ (derive exToiletNull).Longitude.isSome = true
    ∧ (derive exToiletNull) ∉ map_data (filtered_df [exToiletNull] "All" "All") := by
  decide

/-- C2 amended: a filtered record appears in the map point sets exactly
when its latitude, longitude, school name and toilet count are all
non-null (the dropna ranges over all seven selected map columns, of which
these four are the nullable ones); records it excludes still belong to the
filtered set that the KPI and aggregate views consume. -/
theorem C2_amended_map_membership (rows : List RawRecord) (province district : String)
    (r : SchoolRecord) :
    r ∈ map_data (filtered_df rows province district)
      ↔ r ∈ filtered_df rows province district
        ∧ r.Latitude.isSome = true ∧ r.Longitude.isSome = true
        ∧ r.Name_of_Sc.isSome = true ∧ r.TotalToile.isSome = true := by
  unfold map_data map_row_complete
  simp [List.mem_filter, and_assoc]

/-- C4: when the filter selection yields zero records every downstream
view degrades to empty or zero output: the three KPI sums are 0, both
group-by-district tables are empty, and both map point sets are empty. -/
theorem C4_empty_filter_degrades (rows : List RawRecord) (province district : String)
    (h : filtered_df rows province district = []) :
    kpi_total_enrollment (filtered_df rows province district) = 0
    ∧ kpi_total_teachers (filtered_df rows province district) = 0
    ∧ kpi_total_shortage (filtered_df rows province district) = 0
    ∧ ratio_chart (filtered_df rows province district) = []
    ∧ shortage_top10 (filtered_df rows province district) = []
    ∧ fig_shortage_points (filtered_df rows province district) = []
    ∧ fig_infra_points (filtered_df rows province district) = [] := by
  rw [h]
  refine ⟨rfl, rfl, rfl, rfl, ?_, rfl, rfl⟩
  have hc : shortage_chart ([] : List SchoolRecord) = [] := rfl
  show ((shortage_chart ([] : List SchoolRecord)).mergeSort
      (fun a b => decide (b.2 ≤ a.2))).take 10 = []
  rw [hc, List.mergeSort_nil]
  rfl

/-- C4 witness: the empty dataset filters to zero records and every view
degrades accordingly. -/
theorem C4_empty_filter_degrades_witness :
    filtered_df [] "All" "All" = []
    ∧ (kpi_total_enrollment (filtered_df [] "All" "All") = 0
      ∧ kpi_total_teachers (filtered_df [] "All" "All") = 0
      ∧ kpi_total_shortage (filtered_df [] "All" "All") = 0
      ∧ ratio_chart (filtered_df [] "All" "All") = []
      ∧ shortage_top10 (filtered_df [] "All" "All") = []
      ∧ fig_shortage_points (filtered_df [] "All" "All") = []
      ∧ fig_infra_points (filtered_df [] "All" "All") = []) :=
  ⟨rfl, C4_empty_filter_degrades [] "All" "All" rfl⟩

/-- C8: with both selectors "All" the three KPI sums over the filtered set
equal the sums computed directly over the full valid dataset, the
derivation of all records with non-null positive enrollment. -/
theorem C8_all_all_kpis (rows : List RawRecord) :
    kpi_total_enrollment (filtered_df rows "All" "All")
        = kpi_total_enrollment ((rows.filter validEnrol).map derive)
    ∧ kpi_total_teachers (filtered_df rows "All" "All")
        = kpi_total_teachers ((rows.filter validEnrol).map derive)
    ∧ kpi_total_shortage (filtered_df rows "All" "All")
        = kpi_total_shortage ((rows.filter validEnrol).map derive) :=
  ⟨rfl, rfl, rfl⟩

/-- C10: the shortage map and the infrastructure map are drawn from the
identical point set: both are built over map_data of the filtered rows, so
a school occurs in one view exactly when it occurs in the other. -/
theorem C10_maps_same_points (rows : List RawRecord) (province district : String) :
    ((fig_shortage_points (filtered_df rows province district)).map Prod.fst
        = map_data (filtered_df rows province district)
      ∧ (fig_infra_points (filtered_df rows province district)).map Prod.fst
        = map_data (filtered_df rows province district))
    ∧ ∀ s : SchoolRecord,
        (s ∈ (fig_shortage_points (filtered_df rows province district)).map Prod.fst
          ↔ s ∈ (fig_infra_points (filtered_df rows province district)).map Prod.fst) := by
  have h1 : (fig_shortage_points (filtered_df rows province district)).map Prod.fst
      = map_data (filtered_df rows province district) := by
    exact map_fst_pair _ _
  have h2 : (fig_infra_points (filtered_df rows province district)).map Prod.fst
      = map_data (filtered_df rows province district) := by
    exact map_fst_pair _ _
  exact ⟨⟨h1, h2⟩, fun s => by rw [h1, h2]⟩
